import Mathlib

/-!
Shallow embedding of the Windows toast-notification plugin
(`src/client/windows/runner/windows_notifications_plugin.cpp`).

The source file contains two concatenated versions of the plugin: a
superseded console stub (first definitions) and the full native-backed
version (second definitions, lines 192-432).  Only the full version is
embedded here; the stub is dead scaffold code.

Native calls (`CreateToastNotifier`, `ToastNotifier::Show`,
`ToastNotifier::Hide`) are modelled through an environment `Env` of
success flags, and every attempted native call is recorded as a
`NativeEvent` in a trace.  `GetTickCount64` is modelled as an explicit
`tick : Nat` input (the real counter is monotone non-decreasing with
millisecond resolution, so consecutive calls may observe equal ticks).
Machine integers carry no overflow here (progress values are small), so
`int` is embedded as `Int`.
-/

/-- Decimal digit character, the embedding of the digit production used by
`std::to_string` / stream insertion of integers. -/
def digitChar (d : Nat) : Char := Char.ofNat (48 + d)

/-- Fuel-indexed decimal rendering of a natural number, most significant
digit first; the embedding of `std::to_string` on non-negative values. -/
def toDecCore : Nat → Nat → List Char
  | 0, _ => []
  | f + 1, n =>
    if n < 10 then [digitChar n]
    else toDecCore f (n / 10) ++ [digitChar (n % 10)]

/-- `std::to_string` on a `Nat` (fuel `n + 1` always suffices). -/
def natToString (n : Nat) : String := ⟨toDecCore (n + 1) n⟩

/-- Stream insertion of a C++ `int` (decimal, `-` sign for negatives). -/
def intToString (i : Int) : String :=
  if i < 0 then "-" ++ natToString i.natAbs else natToString i.toNat

/-- Value of a most-significant-first decimal digit list (used to prove
`natToString` injective). -/
def decVal : List Char → Nat
  | [] => 0
  | c :: cs => (c.toNat - 48) * 10 ^ cs.length + decVal cs

/-- The progress element of a toast payload: `<progress title=... value=...
valueStringOverride=... status=.../>` from `CreateProgressToastXml`. -/
structure ProgressElem where
  title : String
  value : ℚ
  valueStringOverride : String
  status : String
  deriving DecidableEq

/-- Structured form of the generated toast XML payload: a `ToastGeneric`
binding with its `<text>` lines and optional progress element. -/
structure ToastXml where
  texts : List String
  progressElem : Option ProgressElem
  deriving DecidableEq

/-- A `winrt ToastNotification` object: its payload and its `Tag`. -/
structure ToastNotification where
  payload : ToastXml
  tag : String
  deriving DecidableEq

/-- One attempted call on the native notification service, with the
outcome the environment assigned to it. -/
inductive NativeEvent where
  | acquire (ok : Bool)
  | submit (payload : ToastXml) (tag : Option String) (ok : Bool)
  | retract (tag : String) (ok : Bool)
  deriving DecidableEq

/-- Outcomes the native service environment assigns to the (at most one
each) acquire / hide / show calls of a single plugin operation. -/
structure Env where
  initOk : Bool
  hideOk : Bool
  showOk : Bool

/-- The plugin's session state: the four member fields of
`WindowsNotificationsPlugin`. -/
structure PluginState where
  initialized_ : Bool
  toast_notifier_ : Option Unit
  current_notification_ : Option ToastNotification
  current_tag_ : String

/-- Result of one controller member function: the exception it threw (if
any), the mutated member state, and the native calls it attempted. -/
structure OpResult where
  exn : Option String
  state : PluginState
  trace : List NativeEvent

/-- Flutter `EncodableValue` (the variants this dispatcher touches). -/
inductive EncodableValue where
  | null
  | bool (b : Bool)
  | int (i : Int)
  | str (s : String)
  | list (vs : List EncodableValue)
  | map (entries : List (EncodableValue × EncodableValue))

/-- `flutter::MethodResult`: `Success`, `Error(code, message)`, or
`NotImplemented`. -/
inductive MethodResult where
  | success (v : EncodableValue)
  | error (code : String) (message : String)
  | notImplemented

/-- Does this map key (an `EncodableValue`) equal the given string key?
`std::map::find` with an `EncodableValue(string)` key matches exactly the
entries holding an equal string. -/
def keyMatches : EncodableValue → String → Bool
  | .str s, k => s == k
  | _, _ => false

/-- `arguments->find(EncodableValue(k))`: first entry whose key is the
string `k`. -/
def findKey (entries : List (EncodableValue × EncodableValue)) (k : String) :
    Option EncodableValue :=
  (entries.find? fun e => keyMatches e.1 k).map (·.2)

/-- `std::get_if<flutter::EncodableMap>(method_call.arguments())`:
`some` entries when the payload is a map, otherwise `none`. -/
def argsAsMap : Option EncodableValue → Option (List (EncodableValue × EncodableValue))
  | some (.map m) => some m
  | _ => none

/-- `std::get<std::string>`: throws `bad variant access` unless the value
holds a string. -/
def getString : EncodableValue → Except String String
  | .str s => .ok s
  | _ => .error "bad variant access"

/-- `std::get<int>`: throws `bad variant access` unless the value holds an
int. -/
def getInt : EncodableValue → Except String Int
  | .int i => .ok i
  | _ => .error "bad variant access"

def isStr : EncodableValue → Bool
  | .str _ => true
  | _ => false

def isInt : EncodableValue → Bool
  | .int _ => true
  | _ => false

namespace WindowsNotificationsPlugin

/-- `CreateProgressToastXml` (source lines 385-406): three text lines and a
progress element with `value = progress / 100.0` and override string
`"<progress>%"`. -/
def CreateProgressToastXml (title subtitle : String) (progress : Int)
    (status progressLabel : String) : ToastXml :=
  { texts := [title, subtitle, status]
    progressElem := some
      { title := progressLabel
        value := (progress : ℚ) / 100
        valueStringOverride := intToString progress ++ "%"
        status := status } }

/-- `CreateCompletionToastXml` (source lines 408-423): three text lines, no
progress element. -/
def CreateCompletionToastXml (title subtitle message : String) : ToastXml :=
  { texts := [title, subtitle, message], progressElem := none }

/-- `Initialize` (source lines 286-295): acquire the toast notifier; on
failure set `initialized_ = false` (the old notifier handle is not
touched) and throw. -/
def Initialize (env : Env) (s : PluginState) : OpResult :=
  if env.initOk then
    { exn := none
      state := { s with toast_notifier_ := some (), initialized_ := true }
      trace := [.acquire true] }
  else
    { exn := some "Failed to initialize Windows notifications"
      state := { s with initialized_ := false }
      trace := [.acquire false] }

/-- `HideToast` (source lines 346-356): when both a current notification
and a notifier exist, attempt the native hide (its failure is swallowed)
and then unconditionally clear `current_notification_` and
`current_tag_`; otherwise do nothing. -/
def HideToast (env : Env) (s : PluginState) : OpResult :=
  match s.current_notification_, s.toast_notifier_ with
  | some n, some _ =>
    { exn := none
      state := { s with current_notification_ := none, current_tag_ := "" }
      trace := [.retract n.tag env.hideOk] }
  | _, _ => { exn := none, state := s, trace := [] }

/-- `ShowProgressToast` (source lines 297-326): throw when not
initialized; otherwise hide any current notification, build the payload,
store the new notification and tag (`"progress_" + to_string(tick)`)
in the member fields, then call `Show` — a `Show` failure (or a null
notifier) is rethrown as `Failed to show progress toast`, after the
member fields were already overwritten. -/
def ShowProgressToast (env : Env) (tick : Nat) (title subtitle : String)
    (progress : Int) (status progressLabel : String) (s : PluginState) : OpResult :=
  if s.initialized_ = false then
    { exn := some "Windows notifications not initialized", state := s, trace := [] }
  else
    let r1 := HideToast env s
    let xml := CreateProgressToastXml title subtitle progress status progressLabel
    let tag := "progress_" ++ natToString tick
    let s2 := { r1.state with
                  current_notification_ := some { payload := xml, tag := tag }
                  current_tag_ := tag }
    match s2.toast_notifier_ with
    | none =>
      { exn := some "Failed to show progress toast", state := s2, trace := r1.trace }
    | some _ =>
      if env.showOk then
        { exn := none, state := s2, trace := r1.trace ++ [.submit xml (some tag) true] }
      else
        { exn := some "Failed to show progress toast", state := s2
          trace := r1.trace ++ [.submit xml (some tag) false] }

/-- `UpdateProgress` (source lines 328-344): silent no-op when not
initialized or no current notification; otherwise re-show with the
placeholder content `("File Download", "Updating...", progress, status,
"Downloaded")`, swallowing any exception. -/
def UpdateProgress (env : Env) (tick : Nat) (progress : Int) (status : String)
    (s : PluginState) : OpResult :=
  if s.initialized_ = false ∨ s.current_notification_ = none then
    { exn := none, state := s, trace := [] }
  else
    let r := ShowProgressToast env tick "File Download" "Updating..." progress status
      "Downloaded" s
    { r with exn := none }

/-- `ShowCompletionToast` (source lines 358-383): silent no-op when not
initialized; otherwise hide any current notification and show an untagged
completion toast, swallowing any failure; the completion notification is
not stored in the member fields. -/
def ShowCompletionToast (env : Env) (title subtitle message : String)
    (s : PluginState) : OpResult :=
  if s.initialized_ = false then
    { exn := none, state := s, trace := [] }
  else
    let r1 := HideToast env s
    let xml := CreateCompletionToastXml title subtitle message
    match r1.state.toast_notifier_ with
    | none => { exn := none, state := r1.state, trace := r1.trace }
    | some _ =>
      { exn := none, state := r1.state
        trace := r1.trace ++ [.submit xml none env.showOk] }

/-- Result of one dispatched method call: the `MethodResult` sent back,
the plugin state afterwards, and the native calls attempted. -/
structure DispatchResult where
  result : MethodResult
  state : PluginState
  trace : List NativeEvent

/-- Argument extraction for `showProgressToast` (source lines 213-219),
in C++ evaluation order; any wrongly typed value throws. -/
def extractShowArgs (m : List (EncodableValue × EncodableValue))
    (tv sv pv : EncodableValue) :
    Except String (String × String × Int × String × String) :=
  match getString tv with
  | .error e => .error e
  | .ok title =>
    match getString sv with
    | .error e => .error e
    | .ok subtitle =>
      match getInt pv with
      | .error e => .error e
      | .ok progress =>
        match (match findKey m "status" with
               | some v => getString v
               | none => .ok "") with
        | .error e => .error e
        | .ok status =>
          match (match findKey m "progressLabel" with
                 | some v => getString v
                 | none => .ok "Progress") with
          | .error e => .error e
          | .ok label => .ok (title, subtitle, progress, status, label)

/-- Argument extraction for `updateProgress` (source lines 237-239). -/
def extractUpdateArgs (m : List (EncodableValue × EncodableValue))
    (pv : EncodableValue) : Except String (Int × String) :=
  match getInt pv with
  | .error e => .error e
  | .ok progress =>
    match (match findKey m "status" with
           | some v => getString v
           | none => .ok "") with
    | .error e => .error e
    | .ok status => .ok (progress, status)

/-- Argument extraction for `showCompletionToast` (source lines 262-265). -/
def extractCompletionArgs (m : List (EncodableValue × EncodableValue))
    (tv sv : EncodableValue) : Except String (String × String × String) :=
  match getString tv with
  | .error e => .error e
  | .ok title =>
    match getString sv with
    | .error e => .error e
    | .ok subtitle =>
      match (match findKey m "message" with
             | some v => getString v
             | none => .ok "") with
      | .error e => .error e
      | .ok message => .ok (title, subtitle, message)

/-- `HandleMethodCall` (source lines 192-284): the method dispatcher.
Validates the argument payload, extracts arguments, invokes the
controller member function, and converts any thrown exception into
`Error("NATIVE_ERROR", what)`. -/
def HandleMethodCall (env : Env) (tick : Nat) (method : String)
    (args : Option EncodableValue) (s : PluginState) : DispatchResult :=
  if method = "initialize" then
    let r := Initialize env s
    match r.exn with
    | none => ⟨.success (.bool true), r.state, r.trace⟩
    | some e => ⟨.error "NATIVE_ERROR" e, r.state, r.trace⟩
  else if method = "showProgressToast" then
    match argsAsMap args with
    | none => ⟨.error "INVALID_ARGUMENTS" "Arguments must be a map", s, []⟩
    | some m =>
      match findKey m "title", findKey m "subtitle", findKey m "progress" with
      | some tv, some sv, some pv =>
        match extractShowArgs m tv sv pv with
        | .error e => ⟨.error "NATIVE_ERROR" e, s, []⟩
        | .ok (title, subtitle, progress, status, label) =>
          let r := ShowProgressToast env tick title subtitle progress status label s
          match r.exn with
          | none => ⟨.success (.bool true), r.state, r.trace⟩
          | some e => ⟨.error "NATIVE_ERROR" e, r.state, r.trace⟩
      | _, _, _ => ⟨.error "INVALID_ARGUMENTS" "Missing required arguments", s, []⟩
  else if method = "updateProgress" then
    match argsAsMap args with
    | none => ⟨.error "INVALID_ARGUMENTS" "Arguments must be a map", s, []⟩
    | some m =>
      match findKey m "progress" with
      | some pv =>
        match extractUpdateArgs m pv with
        | .error e => ⟨.error "NATIVE_ERROR" e, s, []⟩
        | .ok (progress, status) =>
          let r := UpdateProgress env tick progress status s
          ⟨.success (.bool true), r.state, r.trace⟩
      | none => ⟨.error "INVALID_ARGUMENTS" "Missing progress argument", s, []⟩
  else if method = "hideToast" then
    let r := HideToast env s
    ⟨.success (.bool true), r.state, r.trace⟩
  else if method = "showCompletionToast" then
    match argsAsMap args with
    | none => ⟨.error "INVALID_ARGUMENTS" "Arguments must be a map", s, []⟩
    | some m =>
      match findKey m "title", findKey m "subtitle" with
      | some tv, some sv =>
        match extractCompletionArgs m tv sv with
        | .error e => ⟨.error "NATIVE_ERROR" e, s, []⟩
        | .ok (title, subtitle, message) =>
          let r := ShowCompletionToast env title subtitle message s
          ⟨.success (.bool true), r.state, r.trace⟩
      | _, _ => ⟨.error "INVALID_ARGUMENTS" "Missing required arguments", s, []⟩
  else
    ⟨.notImplemented, s, []⟩

end WindowsNotificationsPlugin

/-- A well-formed `updateProgress` argument payload: a map whose
`progress` entry holds an int and whose `status` entry, if present,
holds a string. -/
def updateArgsWellFormed : Option EncodableValue → Bool
  | some (.map m) =>
    (match findKey m "progress" with
     | some v => isInt v
     | none => false) &&
    (match findKey m "status" with
     | some v => isStr v
     | none => true)
  | _ => false

/-- A well-formed `showCompletionToast` argument payload: a map whose
`title` and `subtitle` entries hold strings and whose `message` entry, if
present, holds a string. -/
def completionArgsWellFormed : Option EncodableValue → Bool
  | some (.map m) =>
    (match findKey m "title" with
     | some v => isStr v
     | none => false) &&
    (match findKey m "subtitle" with
     | some v => isStr v
     | none => false) &&
    (match findKey m "message" with
     | some v => isStr v
     | none => true)
  | _ => false

/-! ### Injectivity of the decimal rendering used for correlation tags -/

theorem digitChar_toNat : ∀ d : Nat, d < 10 → (digitChar d).toNat = 48 + d := by
  decide

theorem decVal_append_digit (xs : List Char) (c : Char) :
    decVal (xs ++ [c]) = decVal xs * 10 + (c.toNat - 48) := by
  induction xs with
  | nil => simp [decVal]
  | cons x xs ih =>
    have hlen : (xs ++ [c]).length = xs.length + 1 := by simp
    simp only [List.cons_append, decVal, List.append_eq, ih, hlen]
    ring

theorem decVal_toDecCore : ∀ f n : Nat, n < 10 ^ f → decVal (toDecCore f n) = n := by
  intro f
  induction f with
  | zero =>
    intro n hn
    interval_cases n
    rfl
  | succ f ih =>
    intro n hn
    rw [toDecCore]
    by_cases h10 : n < 10
    · simp only [h10, if_true, decVal, List.length_nil, pow_zero, mul_one,
        digitChar_toNat n h10]
      omega
    · have hdiv : n / 10 < 10 ^ f := by
        rw [Nat.div_lt_iff_lt_mul (by norm_num : 0 < 10)]
        calc n < 10 ^ (f + 1) := hn
        _ = 10 ^ f * 10 := by rw [pow_succ]
      simp only [h10, if_false, decVal_append_digit, ih (n / 10) hdiv,
        digitChar_toNat (n % 10) (Nat.mod_lt n (by norm_num))]
      omega

theorem natToString_inj {a b : Nat} (h : natToString a = natToString b) : a = b := by
  have hd : toDecCore (a + 1) a = toDecCore (b + 1) b := congrArg String.data h
  have ha : a < 10 ^ (a + 1) := lt_of_lt_of_le (Nat.lt_pow_self (by norm_num) a)
    (Nat.pow_le_pow_right (by norm_num) (Nat.le_succ a))
  have hb : b < 10 ^ (b + 1) := lt_of_lt_of_le (Nat.lt_pow_self (by norm_num) b)
    (Nat.pow_le_pow_right (by norm_num) (Nat.le_succ b))
  calc a = decVal (toDecCore (a + 1) a) := (decVal_toDecCore _ a ha).symm
  _ = decVal (toDecCore (b + 1) b) := by rw [hd]
  _ = b := decVal_toDecCore _ b hb

theorem progressTag_inj {a b : Nat}
    (h : "progress_" ++ natToString a = "progress_" ++ natToString b) : a = b := by
  apply natToString_inj
  have hd : ("progress_" ++ natToString a).data = ("progress_" ++ natToString b).data :=
    congrArg String.data h
  simp only [String.data_append] at hd
  have := List.append_cancel_left hd
  cases hna : natToString a with
  | mk la =>
    cases hnb : natToString b with
    | mk lb =>
      rw [hna, hnb] at this
      exact congrArg String.mk this

open WindowsNotificationsPlugin

/-- The trace of a `ShowProgressToast` call from an initialized state with
an active notification and a live notifier: exactly one retract of the old
notification followed by one submit of the new payload. -/
theorem showProgress_trace_active (env : Env) (tick : Nat)
    (title subtitle status label : String) (progress : Int)
    (s : PluginState) (n : ToastNotification)
    (hinit : s.initialized_ = true)
    (hn : s.current_notification_ = some n) (ht : s.toast_notifier_ = some ()) :
    (ShowProgressToast env tick title subtitle progress status label s).trace =
      [.retract n.tag env.hideOk,
       .submit (CreateProgressToastXml title subtitle progress status label)
         (some ("progress_" ++ natToString tick)) env.showOk] := by
  simp only [ShowProgressToast, hinit, HideToast, hn, ht]
  cases env.showOk <;> simp

/-- C9: for every `showProgressToast(title, subtitle, progress, status,
progressLabel)` call, the generated payload's progress element has value
`progress/100`, override string `"<progress>%"`, the given progress label
as its label, and the given status; in particular progress 42 yields value
`0.42` and override `"42%"`. -/
theorem c9_progress_payload (title subtitle status label : String) (progress : Int) :
    (CreateProgressToastXml title subtitle progress status label).progressElem =
      some { title := label, value := (progress : ℚ) / 100,
             valueStringOverride := intToString progress ++ "%", status := status } ∧
    ((CreateProgressToastXml "Download" "file.zip" 42 "Downloading" "Progress").progressElem.map
      ProgressElem.value) = some (0.42 : ℚ) ∧
    ((CreateProgressToastXml "Download" "file.zip" 42 "Downloading" "Progress").progressElem.map
      ProgressElem.valueStringOverride) = some "42%" ∧
    ((CreateProgressToastXml "Download" "file.zip" 42 "Downloading" "Progress").progressElem.map
      ProgressElem.title) = some "Progress" ∧
    ((CreateProgressToastXml "Download" "file.zip" 42 "Downloading" "Progress").progressElem.map
      ProgressElem.status) = some "Downloading" := by
  refine ⟨rfl, ?_, ?_, rfl, rfl⟩
  · norm_num [CreateProgressToastXml]
  · decide

/-- C8: a `hideToast` call with an active notification (and live notifier)
returns success to the caller, clears `current_notification_` and
`current_tag_`, and attempts exactly one native retract — whatever outcome
the environment assigns to that retract (failures are swallowed). -/
theorem c8_hide_clears_state (env : Env) (tick : Nat) (args : Option EncodableValue)
    (s : PluginState) (n : ToastNotification)
    (hn : s.current_notification_ = some n) (ht : s.toast_notifier_ = some ()) :
    (HandleMethodCall env tick "hideToast" args s).result = .success (.bool true) ∧
    (HandleMethodCall env tick "hideToast" args s).state.current_notification_ = none ∧
    (HandleMethodCall env tick "hideToast" args s).state.current_tag_ = "" ∧
    (HandleMethodCall env tick "hideToast" args s).trace = [.retract n.tag env.hideOk] := by
  simp [HandleMethodCall, HideToast, hn, ht]

theorem c8_hide_clears_state_witness :
    (HandleMethodCall ⟨true, true, false⟩ 3 "hideToast" none
      ⟨true, some (), some ⟨⟨["a", "b", "c"], none⟩, "progress_1"⟩, "progress_1"⟩).result
        = .success (.bool true) ∧
    (HandleMethodCall ⟨true, true, false⟩ 3 "hideToast" none
      ⟨true, some (), some ⟨⟨["a", "b", "c"], none⟩, "progress_1"⟩, "progress_1"⟩).state.current_notification_
        = none ∧
    (HandleMethodCall ⟨true, true, false⟩ 3 "hideToast" none
      ⟨true, some (), some ⟨⟨["a", "b", "c"], none⟩, "progress_1"⟩, "progress_1"⟩).state.current_tag_
        = "" ∧
    (HandleMethodCall ⟨true, true, false⟩ 3 "hideToast" none
      ⟨true, some (), some ⟨⟨["a", "b", "c"], none⟩, "progress_1"⟩, "progress_1"⟩).trace
        = [.retract "progress_1" true] :=
  c8_hide_clears_state ⟨true, true, false⟩ 3 none
    ⟨true, some (), some ⟨⟨["a", "b", "c"], none⟩, "progress_1"⟩, "progress_1"⟩
    ⟨⟨["a", "b", "c"], none⟩, "progress_1"⟩ rfl rfl

/-- C1: during a `showProgressToast` call made while a notification is
active (with a live notifier), every native submit in the call's trace is
preceded by a retract of the previously active notification. -/
theorem c1_submit_preceded_by_retract (env : Env) (tick : Nat)
    (title subtitle status label : String) (progress : Int)
    (s : PluginState) (n : ToastNotification)
    (hn : s.current_notification_ = some n) (ht : s.toast_notifier_ = some ()) :
    ∀ i pl tg ok,
      ((ShowProgressToast env tick title subtitle progress status label s).trace).get? i
          = some (.submit pl tg ok) →
      ∃ j, j < i ∧
        ((ShowProgressToast env tick title subtitle progress status label s).trace).get? j
            = some (.retract n.tag env.hideOk) := by
  intro i pl tg ok hi
  by_cases hinit : s.initialized_ = true
  · rw [showProgress_trace_active env tick title subtitle status label progress s n hinit hn ht]
      at hi ⊢
    match i with
    | 0 => simp at hi
    | 1 => exact ⟨0, by omega, rfl⟩
    | (k + 2) => simp at hi
  · have hinit' : s.initialized_ = false := by
      cases hb : s.initialized_
      · rfl
      · exact absurd hb hinit
    simp [ShowProgressToast, hinit'] at hi

theorem c1_submit_preceded_by_retract_witness :
    ∃ j, j < 1 ∧
      ((ShowProgressToast ⟨true, true, true⟩ 9 "T" "S" 10 "st" "L"
        ⟨true, some (), some ⟨⟨["a", "b", "c"], none⟩, "progress_1"⟩, "progress_1"⟩).trace).get? j
          = some (.retract "progress_1" true) :=
  c1_submit_preceded_by_retract ⟨true, true, true⟩ 9 "T" "S" "st" "L" 10
    ⟨true, some (), some ⟨⟨["a", "b", "c"], none⟩, "progress_1"⟩, "progress_1"⟩
    ⟨⟨["a", "b", "c"], none⟩, "progress_1"⟩ rfl rfl 1
    (CreateProgressToastXml "T" "S" 10 "st" "L") (some ("progress_" ++ natToString 9)) true
    (by rw [showProgress_trace_active _ _ _ _ _ _ _ _ ⟨⟨["a", "b", "c"], none⟩, "progress_1"⟩ rfl rfl rfl]; rfl)

/-- A `ShowProgressToast` call that ends without an exception was made on
an initialized session. -/
theorem showProgress_exn_none_initialized (env : Env) (tick : Nat)
    (a b c d : String) (p : Int) (s : PluginState)
    (h : (ShowProgressToast env tick a b p c d s).exn = none) :
    s.initialized_ = true := by
  cases hb : s.initialized_
  · simp [ShowProgressToast, hb] at h
  · rfl

/-- Any `ShowProgressToast` call on an initialized session stores
`"progress_" ++ decimal(tick)` as `current_tag_` (even when the native
submit afterwards fails). -/
theorem showProgress_tag_when_initialized (env : Env) (tick : Nat)
    (a b c d : String) (p : Int) (s : PluginState) (hinit : s.initialized_ = true) :
    (ShowProgressToast env tick a b p c d s).state.current_tag_ =
      "progress_" ++ natToString tick := by
  rcases hn : s.current_notification_ with _ | n <;>
    rcases ht : s.toast_notifier_ with _ | u <;>
    cases hs : env.showOk <;>
    simp [ShowProgressToast, HideToast, hinit, hn, ht, hs]

/-- C7 counterexample: two successive successful `showProgressToast` calls
that both read tick value 5 from the time-based counter (which is only
non-decreasing, with millisecond resolution) generate the same correlation
tag, refuting distinctness of tags across the process lifetime. -/
theorem c7_counterexample_equal_tags :
    (ShowProgressToast ⟨true, true, true⟩ 5 "A" "B" 1 "s" "L"
        ⟨true, some (), none, ""⟩).exn = none ∧
    (ShowProgressToast ⟨true, true, true⟩ 5 "C" "D" 2 "t" "M"
        (ShowProgressToast ⟨true, true, true⟩ 5 "A" "B" 1 "s" "L"
          ⟨true, some (), none, ""⟩).state).exn = none ∧
    (ShowProgressToast ⟨true, true, true⟩ 5 "A" "B" 1 "s" "L"
        ⟨true, some (), none, ""⟩).state.current_tag_ =
      (ShowProgressToast ⟨true, true, true⟩ 5 "C" "D" 2 "t" "M"
        (ShowProgressToast ⟨true, true, true⟩ 5 "A" "B" 1 "s" "L"
          ⟨true, some (), none, ""⟩).state).state.current_tag_ :=
  ⟨rfl, rfl, rfl⟩

/-- C7 amended: the correlation tag of a successful `showProgressToast` is
`"progress_" ++ decimal(tick)`; two successful show calls are guaranteed
distinct tags exactly when their readings of the time-based counter
differ — calls within the same counter tick share a tag. -/
theorem c7_amended_distinct_tags (env1 env2 : Env) (t1 t2 : Nat)
    (a1 b1 c1 d1 a2 b2 c2 d2 : String) (p1 p2 : Int) (s1 s2 : PluginState)
    (h1 : (ShowProgressToast env1 t1 a1 b1 p1 c1 d1 s1).exn = none)
    (h2 : (ShowProgressToast env2 t2 a2 b2 p2 c2 d2 s2).exn = none)
    (ht : t1 ≠ t2) :
    (ShowProgressToast env1 t1 a1 b1 p1 c1 d1 s1).state.current_tag_ ≠
      (ShowProgressToast env2 t2 a2 b2 p2 c2 d2 s2).state.current_tag_ := by
  rw [showProgress_tag_when_initialized env1 t1 a1 b1 c1 d1 p1 s1
      (showProgress_exn_none_initialized env1 t1 a1 b1 c1 d1 p1 s1 h1),
    showProgress_tag_when_initialized env2 t2 a2 b2 c2 d2 p2 s2
      (showProgress_exn_none_initialized env2 t2 a2 b2 c2 d2 p2 s2 h2)]
  intro he
  exact ht (progressTag_inj he)

theorem c7_amended_distinct_tags_witness :
    (ShowProgressToast ⟨true, true, true⟩ 5 "A" "B" 1 "s" "L"
        ⟨true, some (), none, ""⟩).state.current_tag_ ≠
      (ShowProgressToast ⟨true, true, true⟩ 6 "C" "D" 2 "t" "M"
        ⟨true, some (), none, ""⟩).state.current_tag_ :=
  c7_amended_distinct_tags ⟨true, true, true⟩ ⟨true, true, true⟩ 5 6
    "A" "B" "s" "L" "C" "D" "t" "M" 1 2
    ⟨true, some (), none, ""⟩ ⟨true, some (), none, ""⟩ rfl rfl (by decide)

/-- C6 counterexample: `hideToast` dispatched with a non-map argument
payload (a list) returns success instead of
`InvalidArguments("Arguments must be a map")` — the map check is absent
for `hideToast` (and `initialize`). -/
theorem c6_counterexample_hide_ignores_payload :
    (HandleMethodCall ⟨true, true, true⟩ 0 "hideToast" (some (.list []))
      ⟨false, none, none, ""⟩).result = .success (.bool true) ∧
    (HandleMethodCall ⟨true, true, true⟩ 0 "initialize" (some (.list []))
      ⟨false, none, none, ""⟩).result = .success (.bool true) :=
  ⟨rfl, rfl⟩

/-- C6 amended: of the five recognized operations, exactly the three that
read arguments — `showProgressToast`, `updateProgress`,
`showCompletionToast` — fail with
`InvalidArguments("Arguments must be a map")` when the payload is not a
map (leaving the state untouched and issuing no native calls);
`initialize` and `hideToast` ignore the argument payload entirely. -/
theorem c6_amended_map_check (env : Env) (tick : Nat) (s : PluginState)
    (args : Option EncodableValue) (method : String)
    (hme : method = "showProgressToast" ∨ method = "updateProgress" ∨
      method = "showCompletionToast")
    (ha : argsAsMap args = none) :
    (HandleMethodCall env tick method args s).result =
      .error "INVALID_ARGUMENTS" "Arguments must be a map" ∧
    (HandleMethodCall env tick method args s).state = s ∧
    (HandleMethodCall env tick method args s).trace = [] := by
  rcases hme with h | h | h <;> subst h <;> simp [HandleMethodCall, ha]

theorem c6_amended_map_check_witness :
    (HandleMethodCall ⟨true, true, true⟩ 0 "updateProgress" (some (.list []))
      ⟨false, none, none, ""⟩).result =
        .error "INVALID_ARGUMENTS" "Arguments must be a map" ∧
    (HandleMethodCall ⟨true, true, true⟩ 0 "updateProgress" (some (.list []))
      ⟨false, none, none, ""⟩).state = ⟨false, none, none, ""⟩ ∧
    (HandleMethodCall ⟨true, true, true⟩ 0 "updateProgress" (some (.list []))
      ⟨false, none, none, ""⟩).trace = [] :=
  c6_amended_map_check ⟨true, true, true⟩ 0 ⟨false, none, none, ""⟩
    (some (.list [])) "updateProgress" (Or.inr (Or.inl rfl)) rfl

/-- C2: in the scenario initialize → showProgressToast(title="Download",
subtitle="file.zip", progress=42, …) → updateProgress(55, "Halfway"), the
replacement notification submitted by the update carries the placeholder
text "File Download"/"Updating…" instead of the title and subtitle of the
most recent show call — the code re-shows with hard-coded content. -/
theorem c2_update_uses_placeholder_content :
    (let env : Env := ⟨true, true, true⟩
     let d1 := HandleMethodCall env 1 "initialize" none ⟨false, none, none, ""⟩
     let d2 := HandleMethodCall env 2 "showProgressToast"
       (some (.map [(.str "title", .str "Download"), (.str "subtitle", .str "file.zip"),
         (.str "progress", .int 42), (.str "status", .str "Downloading"),
         (.str "progressLabel", .str "Progress")])) d1.state
     let d3 := HandleMethodCall env 3 "updateProgress"
       (some (.map [(.str "progress", .int 55), (.str "status", .str "Halfway")])) d2.state
     d3.result = .success (.bool true) ∧
     d3.trace = [.retract ("progress_" ++ natToString 2) true,
       .submit (CreateProgressToastXml "File Download" "Updating..." 55 "Halfway" "Downloaded")
         (some ("progress_" ++ natToString 3)) true] ∧
     d3.state.current_notification_ =
       some ⟨CreateProgressToastXml "File Download" "Updating..." 55 "Halfway" "Downloaded",
         "progress_" ++ natToString 3⟩) :=
  ⟨rfl, rfl, rfl⟩

/-- C3 counterexample: a `showProgressToast` dispatched on an initialized
session whose native submit fails does surface `NATIVE_ERROR`, but the
session retains the freshly created (never-displayed) notification as
`current_notification_` — the active-notification slot is not cleared. -/
theorem c3_counterexample_stale_handle :
    (HandleMethodCall ⟨true, true, false⟩ 7 "showProgressToast"
      (some (.map [(.str "title", .str "T"), (.str "subtitle", .str "S"),
        (.str "progress", .int 10)]))
      ⟨true, some (), none, ""⟩).result =
        .error "NATIVE_ERROR" "Failed to show progress toast" ∧
    (HandleMethodCall ⟨true, true, false⟩ 7 "showProgressToast"
      (some (.map [(.str "title", .str "T"), (.str "subtitle", .str "S"),
        (.str "progress", .int 10)]))
      ⟨true, some (), none, ""⟩).state.current_notification_.isSome = true :=
  ⟨rfl, rfl⟩

/-- C3 amended: when the native submission step of `showProgressToast`
fails, the failure is surfaced to the caller as
`NATIVE_ERROR("Failed to show progress toast")`, but the session does
not end with the active-notification slot cleared: the newly created,
never-displayed notification and its tag are retained as
`current_notification_` and `current_tag_`. -/
theorem c3_amended_failed_show_retains_handle (env : Env) (tick : Nat)
    (s : PluginState) (title subtitle : String) (p : Int)
    (hin : s.initialized_ = true) (hnot : s.toast_notifier_ = some ())
    (hfail : env.showOk = false) :
    (HandleMethodCall env tick "showProgressToast"
      (some (.map [(.str "title", .str title), (.str "subtitle", .str subtitle),
        (.str "progress", .int p)])) s).result =
      .error "NATIVE_ERROR" "Failed to show progress toast" ∧
    (HandleMethodCall env tick "showProgressToast"
      (some (.map [(.str "title", .str title), (.str "subtitle", .str subtitle),
        (.str "progress", .int p)])) s).state.current_notification_ =
      some ⟨CreateProgressToastXml title subtitle p "" "Progress",
        "progress_" ++ natToString tick⟩ ∧
    (HandleMethodCall env tick "showProgressToast"
      (some (.map [(.str "title", .str title), (.str "subtitle", .str subtitle),
        (.str "progress", .int p)])) s).state.current_tag_ =
      "progress_" ++ natToString tick := by
  rcases hn : s.current_notification_ with _ | n <;>
    simp [HandleMethodCall, ShowProgressToast, HideToast, extractShowArgs, argsAsMap,
      findKey, keyMatches, getString, getInt, List.find?, hin, hnot, hfail, hn]

theorem c3_amended_failed_show_retains_handle_witness :
    (HandleMethodCall ⟨true, true, false⟩ 7 "showProgressToast"
      (some (.map [(.str "title", .str "T"), (.str "subtitle", .str "S"),
        (.str "progress", .int 10)]))
      ⟨true, some (), none, ""⟩).result =
      .error "NATIVE_ERROR" "Failed to show progress toast" ∧
    (HandleMethodCall ⟨true, true, false⟩ 7 "showProgressToast"
      (some (.map [(.str "title", .str "T"), (.str "subtitle", .str "S"),
        (.str "progress", .int 10)]))
      ⟨true, some (), none, ""⟩).state.current_notification_ =
      some ⟨CreateProgressToastXml "T" "S" 10 "" "Progress",
        "progress_" ++ natToString 7⟩ ∧
    (HandleMethodCall ⟨true, true, false⟩ 7 "showProgressToast"
      (some (.map [(.str "title", .str "T"), (.str "subtitle", .str "S"),
        (.str "progress", .int 10)]))
      ⟨true, some (), none, ""⟩).state.current_tag_ =
      "progress_" ++ natToString 7 :=
  c3_amended_failed_show_retains_handle ⟨true, true, false⟩ 7
    ⟨true, some (), none, ""⟩ "T" "S" 10 rfl rfl rfl

/-- C4: every `showProgressToast` dispatched while the session is not
initialized surfaces a structured error (never success), issues zero
native calls, and leaves the state untouched — whatever the argument
payload looks like. -/
theorem c4_show_before_init_errors (env : Env) (tick : Nat)
    (args : Option EncodableValue) (s : PluginState) (h : s.initialized_ = false) :
    (∃ code msg, (HandleMethodCall env tick "showProgressToast" args s).result =
      .error code msg) ∧
    (HandleMethodCall env tick "showProgressToast" args s).trace = [] ∧
    (HandleMethodCall env tick "showProgressToast" args s).state = s := by
  rcases hm : argsAsMap args with _ | m
  · exact ⟨⟨"INVALID_ARGUMENTS", "Arguments must be a map",
      by simp [HandleMethodCall, hm]⟩, by simp [HandleMethodCall, hm],
      by simp [HandleMethodCall, hm]⟩
  · rcases hT : findKey m "title" with _ | tv
    · exact ⟨⟨"INVALID_ARGUMENTS", "Missing required arguments",
        by simp [HandleMethodCall, hm, hT]⟩, by simp [HandleMethodCall, hm, hT],
        by simp [HandleMethodCall, hm, hT]⟩
    · rcases hS : findKey m "subtitle" with _ | sv
      · exact ⟨⟨"INVALID_ARGUMENTS", "Missing required arguments",
          by simp [HandleMethodCall, hm, hT, hS]⟩, by simp [HandleMethodCall, hm, hT, hS],
          by simp [HandleMethodCall, hm, hT, hS]⟩
      · rcases hP : findKey m "progress" with _ | pv
        · exact ⟨⟨"INVALID_ARGUMENTS", "Missing required arguments",
            by simp [HandleMethodCall, hm, hT, hS, hP]⟩,
            by simp [HandleMethodCall, hm, hT, hS, hP],
            by simp [HandleMethodCall, hm, hT, hS, hP]⟩
        · rcases hE : extractShowArgs m tv sv pv with e | val
          · exact ⟨⟨"NATIVE_ERROR", e,
              by simp [HandleMethodCall, hm, hT, hS, hP, hE]⟩,
              by simp [HandleMethodCall, hm, hT, hS, hP, hE],
              by simp [HandleMethodCall, hm, hT, hS, hP, hE]⟩
          · obtain ⟨a, b, p, c, d⟩ := val
            exact ⟨⟨"NATIVE_ERROR", "Windows notifications not initialized",
              by simp [HandleMethodCall, ShowProgressToast, hm, hT, hS, hP, hE, h]⟩,
              by simp [HandleMethodCall, ShowProgressToast, hm, hT, hS, hP, hE, h],
              by simp [HandleMethodCall, ShowProgressToast, hm, hT, hS, hP, hE, h]⟩

theorem c4_show_before_init_errors_witness :
    (∃ code msg, (HandleMethodCall ⟨true, true, true⟩ 4 "showProgressToast"
      (some (.map [(.str "title", .str "T"), (.str "subtitle", .str "S"),
        (.str "progress", .int 10)])) ⟨false, none, none, ""⟩).result =
      .error code msg) ∧
    (HandleMethodCall ⟨true, true, true⟩ 4 "showProgressToast"
      (some (.map [(.str "title", .str "T"), (.str "subtitle", .str "S"),
        (.str "progress", .int 10)])) ⟨false, none, none, ""⟩).trace = [] ∧
    (HandleMethodCall ⟨true, true, true⟩ 4 "showProgressToast"
      (some (.map [(.str "title", .str "T"), (.str "subtitle", .str "S"),
        (.str "progress", .int 10)])) ⟨false, none, none, ""⟩).state =
      ⟨false, none, none, ""⟩ :=
  c4_show_before_init_errors ⟨true, true, true⟩ 4
    (some (.map [(.str "title", .str "T"), (.str "subtitle", .str "S"),
      (.str "progress", .int 10)])) ⟨false, none, none, ""⟩ rfl

/-- Shape of a well-formed `updateProgress` payload. -/
theorem updateArgs_shape (a : Option EncodableValue)
    (h : updateArgsWellFormed a = true) :
    ∃ m p, a = some (.map m) ∧ findKey m "progress" = some (.int p) ∧
      (findKey m "status" = none ∨ ∃ st, findKey m "status" = some (.str st)) := by
  rcases a with _ | v
  · simp [updateArgsWellFormed] at h
  rcases v with _ | b | i | t | vs | m
  · simp [updateArgsWellFormed] at h
  · simp [updateArgsWellFormed] at h
  · simp [updateArgsWellFormed] at h
  · simp [updateArgsWellFormed] at h
  · simp [updateArgsWellFormed] at h
  simp only [updateArgsWellFormed, Bool.and_eq_true] at h
  obtain ⟨hp, hs⟩ := h
  rcases hP : findKey m "progress" with _ | v <;> rw [hP] at hp
  · simp at hp
  rcases v with _ | b | i | t | vs | mm <;> simp [isInt] at hp
  refine ⟨m, i, rfl, hP, ?_⟩
  rcases hS : findKey m "status" with _ | w <;> rw [hS] at hs
  · exact Or.inl rfl
  rcases w with _ | b' | i' | t' | vs' | mm' <;> simp [isStr] at hs
  exact Or.inr ⟨t', rfl⟩

/-- Shape of a well-formed `showCompletionToast` payload. -/
theorem completionArgs_shape (a : Option EncodableValue)
    (h : completionArgsWellFormed a = true) :
    ∃ m t u, a = some (.map m) ∧ findKey m "title" = some (.str t) ∧
      findKey m "subtitle" = some (.str u) ∧
      (findKey m "message" = none ∨ ∃ ms, findKey m "message" = some (.str ms)) := by
  rcases a with _ | v
  · simp [completionArgsWellFormed] at h
  rcases v with _ | b | i | t | vs | m
  · simp [completionArgsWellFormed] at h
  · simp [completionArgsWellFormed] at h
  · simp [completionArgsWellFormed] at h
  · simp [completionArgsWellFormed] at h
  · simp [completionArgsWellFormed] at h
  simp only [completionArgsWellFormed, Bool.and_eq_true] at h
  obtain ⟨⟨ht, hu⟩, hm⟩ := h
  rcases hT : findKey m "title" with _ | v <;> rw [hT] at ht
  · simp at ht
  rcases v with _ | b | i | t | vs | mm <;> simp [isStr] at ht
  rcases hU : findKey m "subtitle" with _ | w <;> rw [hU] at hu
  · simp at hu
  rcases w with _ | b' | i' | t' | vs' | mm' <;> simp [isStr] at hu
  refine ⟨m, t, t', rfl, hT, hU, ?_⟩
  rcases hM : findKey m "message" with _ | x <;> rw [hM] at hm
  · exact Or.inl rfl
  rcases x with _ | b'' | i'' | t'' | vs'' | mm'' <;> simp [isStr] at hm
  exact Or.inr ⟨t'', rfl⟩

/-- C5: `updateProgress`, `hideToast` and `showCompletionToast`, dispatched
with well-formed arguments on a session that was never successfully
initialized, each return success to the caller (no surfaced error) and
issue zero native calls. -/
theorem c5_pre_init_silent_success (env : Env) (tick : Nat) (s : PluginState)
    (h1 : s.initialized_ = false) (h2 : s.current_notification_ = none)
    (aU aH aC : Option EncodableValue)
    (hU : updateArgsWellFormed aU = true) (hC : completionArgsWellFormed aC = true) :
    ((HandleMethodCall env tick "updateProgress" aU s).result = .success (.bool true) ∧
     (HandleMethodCall env tick "updateProgress" aU s).trace = []) ∧
    ((HandleMethodCall env tick "hideToast" aH s).result = .success (.bool true) ∧
     (HandleMethodCall env tick "hideToast" aH s).trace = []) ∧
    ((HandleMethodCall env tick "showCompletionToast" aC s).result = .success (.bool true) ∧
     (HandleMethodCall env tick "showCompletionToast" aC s).trace = []) := by
  obtain ⟨mU, p, rfl, hPU, hSU⟩ := updateArgs_shape aU hU
  obtain ⟨mC, t, u, rfl, hTC, hUC, hMC⟩ := completionArgs_shape aC hC
  refine ⟨?_, ?_, ?_⟩
  · rcases hSU with hs | ⟨stat, hs⟩ <;>
      simp [HandleMethodCall, UpdateProgress, extractUpdateArgs, argsAsMap, hPU, hs,
        getInt, getString, h1, h2]
  · constructor <;> simp [HandleMethodCall, HideToast, h2]
  · rcases hMC with hm | ⟨msg, hm⟩ <;>
      simp [HandleMethodCall, ShowCompletionToast, extractCompletionArgs, argsAsMap,
        hTC, hUC, hm, getString, h1]

theorem c5_pre_init_silent_success_witness :
    ((HandleMethodCall ⟨true, true, true⟩ 2 "updateProgress"
        (some (.map [(.str "progress", .int 7)])) ⟨false, none, none, ""⟩).result =
          .success (.bool true) ∧
     (HandleMethodCall ⟨true, true, true⟩ 2 "updateProgress"
        (some (.map [(.str "progress", .int 7)])) ⟨false, none, none, ""⟩).trace = []) ∧
    ((HandleMethodCall ⟨true, true, true⟩ 2 "hideToast" none
        ⟨false, none, none, ""⟩).result = .success (.bool true) ∧
     (HandleMethodCall ⟨true, true, true⟩ 2 "hideToast" none
        ⟨false, none, none, ""⟩).trace = []) ∧
    ((HandleMethodCall ⟨true, true, true⟩ 2 "showCompletionToast"
        (some (.map [(.str "title", .str "T"), (.str "subtitle", .str "S")]))
        ⟨false, none, none, ""⟩).result = .success (.bool true) ∧
     (HandleMethodCall ⟨true, true, true⟩ 2 "showCompletionToast"
        (some (.map [(.str "title", .str "T"), (.str "subtitle", .str "S")]))
        ⟨false, none, none, ""⟩).trace = []) :=
  c5_pre_init_silent_success ⟨true, true, true⟩ 2 ⟨false, none, none, ""⟩ rfl rfl
    (some (.map [(.str "progress", .int 7)])) none
    (some (.map [(.str "title", .str "T"), (.str "subtitle", .str "S")])) rfl rfl

/-- `std::get<std::string>` only ever throws the variant-access message. -/
theorem getString_error_msg (v : EncodableValue) (e : String)
    (h : getString v = .error e) : e = "bad variant access" := by
  rcases v <;> simp_all [getString]

theorem getString_error_of_not_str (v : EncodableValue) (h : isStr v = false) :
    getString v = .error "bad variant access" := by
  rcases v <;> simp_all [getString, isStr]

theorem getInt_error_of_not_int (v : EncodableValue) (h : isInt v = false) :
    getInt v = .error "bad variant access" := by
  rcases v <;> simp_all [getInt, isInt]

/-- When any required `showProgressToast` argument holds a value of the
wrong type, the sequential extraction throws the variant-access
exception. -/
theorem extractShowArgs_wrong_type (m : List (EncodableValue × EncodableValue))
    (tv sv pv : EncodableValue)
    (hbad : isStr tv = false ∨ isStr sv = false ∨ isInt pv = false) :
    extractShowArgs m tv sv pv = .error "bad variant access" := by
  rcases hbad with h | h | h
  · simp [extractShowArgs, getString_error_of_not_str tv h]
  · rcases htv : getString tv with e | t
    · rw [getString_error_msg tv e htv] at htv
      simp [extractShowArgs, htv]
    · simp [extractShowArgs, htv, getString_error_of_not_str sv h]
  · rcases htv : getString tv with e | t
    · rw [getString_error_msg tv e htv] at htv
      simp [extractShowArgs, htv]
    · rcases hsv : getString sv with e | u
      · rw [getString_error_msg sv e hsv] at hsv
        simp [extractShowArgs, htv, hsv]
      · simp [extractShowArgs, htv, hsv, getInt_error_of_not_int pv h]

/-- C10: when the required `showProgressToast` argument keys are present
but one holds a wrongly typed value, the dispatcher returns
`NATIVE_ERROR` (from the caught variant-access exception) rather than
`InvalidArguments`, and the controller is never invoked: the state is
untouched and no native call is attempted. -/
theorem c10_wrong_type_yields_native_error (env : Env) (tick : Nat)
    (s : PluginState) (m : List (EncodableValue × EncodableValue))
    (tv sv pv : EncodableValue)
    (hT : findKey m "title" = some tv) (hS : findKey m "subtitle" = some sv)
    (hP : findKey m "progress" = some pv)
    (hbad : isStr tv = false ∨ isStr sv = false ∨ isInt pv = false) :
    (HandleMethodCall env tick "showProgressToast" (some (.map m)) s).result =
      .error "NATIVE_ERROR" "bad variant access" ∧
    (HandleMethodCall env tick "showProgressToast" (some (.map m)) s).state = s ∧
    (HandleMethodCall env tick "showProgressToast" (some (.map m)) s).trace = [] := by
  have hE := extractShowArgs_wrong_type m tv sv pv hbad
  refine ⟨?_, ?_, ?_⟩ <;> simp [HandleMethodCall, argsAsMap, hT, hS, hP, hE]

theorem c10_wrong_type_yields_native_error_witness :
    (HandleMethodCall ⟨true, true, true⟩ 1 "showProgressToast"
      (some (.map [(.str "title", .int 3), (.str "subtitle", .str "S"),
        (.str "progress", .str "42")])) ⟨true, some (), none, ""⟩).result =
      .error "NATIVE_ERROR" "bad variant access" ∧
    (HandleMethodCall ⟨true, true, true⟩ 1 "showProgressToast"
      (some (.map [(.str "title", .int 3), (.str "subtitle", .str "S"),
        (.str "progress", .str "42")])) ⟨true, some (), none, ""⟩).state =
      ⟨true, some (), none, ""⟩ ∧
    (HandleMethodCall ⟨true, true, true⟩ 1 "showProgressToast"
      (some (.map [(.str "title", .int 3), (.str "subtitle", .str "S"),
        (.str "progress", .str "42")])) ⟨true, some (), none, ""⟩).trace = [] :=
  c10_wrong_type_yields_native_error ⟨true, true, true⟩ 1 ⟨true, some (), none, ""⟩
    [(.str "title", .int 3), (.str "subtitle", .str "S"), (.str "progress", .str "42")]
    (.int 3) (.str "S") (.str "42") rfl rfl rfl (Or.inl rfl)
